import Mathlib

/-!
Verification of the Neutral Minds medical triage system (src/triage.py and
src/test_triage.py) against its specification.

The Python program is a thin wrapper around a Prolog knowledge base
(triage_kb.pl, loaded at engine construction).  The knowledge base file itself
is not part of the sources; its predicates (available_symptom/2, add_symptom/1,
remove_symptom/1, clear_symptoms/0, current_symptoms/1, triage/2,
fired_rules/2, extract_explanations/2) are modelled here from the
specification, while everything in triage.py is embedded directly from that
file.  Tier names, symptom identifiers and explanation texts are plain strings,
matching the string-level interface the Python code observes through pyswip.
-/

namespace Triage

/-- A triage rule of the knowledge base: the tier it belongs to, its condition
(the set of symptom identifiers that must all be present for the rule to
fire), and its explanation text. -/
structure Rule where
  tier : String
  conditions : List String
  explanation : String
deriving Repr, DecidableEq

/-- Modelled from the spec: the symptom vocabulary of the missing knowledge
base triage_kb.pl, the facts behind available_symptom(Id, Desc).  Identifiers
are taken from the spec and the test suite; the spec requires more than 20
unique entries. -/
def symptomTable : List (String × String) :=
  [ ("chest_pain", "Chest pain"),
    ("shortness_of_breath", "Shortness of breath"),
    ("left_arm_pain", "Left arm pain"),
    ("unresponsive", "Unresponsive"),
    ("severe_bleeding", "Severe bleeding"),
    ("seizure", "Seizure"),
    ("sudden_numbness", "Sudden numbness"),
    ("confusion", "Confusion"),
    ("severe_headache", "Severe headache"),
    ("high_fever", "High fever"),
    ("persistent_vomiting", "Persistent vomiting"),
    ("stiff_neck", "Stiff neck"),
    ("severe_abdominal_pain", "Severe abdominal pain"),
    ("fever", "Fever"),
    ("cough", "Cough"),
    ("headache", "Headache"),
    ("dizziness", "Dizziness"),
    ("body_ache", "Body ache"),
    ("joint_pain", "Joint pain"),
    ("swelling", "Swelling"),
    ("runny_nose", "Runny nose"),
    ("sore_throat", "Sore throat"),
    ("fatigue", "Fatigue") ]

/-- The symptom identifiers accepted by the knowledge base. -/
def symptomVocabulary : List String :=
  symptomTable.map Prod.fst

/-- Modelled from the spec: the rule set of the missing knowledge base
triage_kb.pl.  Each rule is a flat conjunction of symptoms with a tier and an
explanation; contents reconstructed from the spec (section 8) and the
behaviour fixed by src/test_triage.py. -/
def ruleCatalog : List Rule :=
  [ ⟨"critical", ["chest_pain", "shortness_of_breath"],
      "Chest pain with shortness of breath suggests acute cardiac or pulmonary risk."⟩,
    ⟨"critical", ["chest_pain", "left_arm_pain"],
      "Chest pain radiating to the left arm suggests myocardial infarction risk."⟩,
    ⟨"critical", ["unresponsive"],
      "Unresponsiveness indicates a life-threatening emergency."⟩,
    ⟨"critical", ["severe_bleeding"],
      "Severe bleeding requires immediate intervention."⟩,
    ⟨"critical", ["seizure"],
      "Seizure activity requires emergency assessment."⟩,
    ⟨"critical", ["sudden_numbness", "confusion", "severe_headache"],
      "Sudden numbness with confusion and severe headache suggests stroke."⟩,
    ⟨"urgent", ["high_fever", "persistent_vomiting"],
      "High fever with persistent vomiting suggests serious infection or dehydration risk."⟩,
    ⟨"urgent", ["high_fever", "stiff_neck"],
      "High fever with stiff neck suggests meningitis risk."⟩,
    ⟨"urgent", ["severe_abdominal_pain"],
      "Severe abdominal pain may indicate an acute abdomen."⟩,
    ⟨"urgent", ["chest_pain"],
      "Chest pain without co-symptoms warrants prompt medical evaluation."⟩,
    ⟨"moderate", ["fever", "cough"],
      "Fever with cough suggests a respiratory infection."⟩,
    ⟨"moderate", ["headache", "dizziness"],
      "Headache with dizziness warrants assessment."⟩,
    ⟨"moderate", ["fever", "body_ache"],
      "Fever with body ache suggests influenza-like illness."⟩,
    ⟨"moderate", ["joint_pain", "swelling"],
      "Joint pain with swelling suggests inflammation or injury."⟩,
    ⟨"moderate", ["persistent_vomiting"],
      "Persistent vomiting risks dehydration."⟩,
    ⟨"low", ["headache"],
      "Isolated headache is usually benign."⟩,
    ⟨"low", ["runny_nose"],
      "Runny nose suggests a common cold."⟩,
    ⟨"low", ["sore_throat"],
      "Sore throat suggests a minor infection."⟩,
    ⟨"low", ["fatigue"],
      "Fatigue alone is usually non-urgent."⟩,
    ⟨"low", ["fever"],
      "Mild fever alone can be monitored."⟩,
    ⟨"low", ["cough"],
      "Cough alone can be monitored."⟩ ]

/-- The fixed descending tier order used by run_triage_all (triage.py line 81)
and, per the spec, by the knowledge base triage/2 when selecting the primary
tier. -/
def tierOrder : List String :=
  ["critical", "urgent", "moderate", "low"]

/-- The state of a TriageEngine session: the working symptom set held by the
knowledge base as dynamic facts, in insertion order. -/
structure EngineState where
  workingSet : List String
deriving Repr, DecidableEq

/-- Modelled from the spec: the knowledge base goal fired_rules(Level, Rules)
collects the rules of the given tier whose whole condition set is contained in
the working set (conjunctive match on subset containment). -/
def fired_rules (working : List String) (level : String) : List Rule :=
  ruleCatalog.filter (fun r => r.tier == level && r.conditions.all (fun c => working.contains c))

/-- Modelled from the spec: the knowledge base goal triage(Level, Explanations)
succeeds with the highest tier (in the fixed descending order) having at least
one fired rule, binding Explanations to that tier's fired-rule explanations in
catalog order; it fails (no solution) when no rule fires. -/
def kbTriage (working : List String) : Option (String × List String) :=
  match tierOrder.find? (fun t => !(fired_rules working t).isEmpty) with
  | some t => some (t, (fired_rules working t).map Rule.explanation)
  | none => none

/-- Modelled from the spec: the knowledge base goal add_symptom(S) checks the
vocabulary, succeeds asserting S when S is known and absent, succeeds without
change when S is already present (idempotent no-op), and fails (no solution,
no state change) when S is outside the vocabulary. -/
def kbAddSymptom (ws : List String) (s : String) : Option (List String) :=
  if s ∈ symptomVocabulary then
    if s ∈ ws then some ws else some (ws ++ [s])
  else
    none

/-- TriageEngine.add_symptom (triage.py lines 52-53): runs the Prolog goal and
discards its solutions with list(...); a goal that merely fails produces an
empty solution list, so the method mutates nothing extra and returns None. -/
def add_symptom (st : EngineState) (s : String) : EngineState :=
  ⟨(kbAddSymptom st.workingSet s).getD st.workingSet⟩

/-- The observable outcome of calling TriageEngine.add_symptom: the method body
(triage.py lines 52-53) contains no raise and no validation, so the call always
returns normally, whether or not the underlying goal succeeded. -/
def add_symptomOutcome (st : EngineState) (s : String) : Except String EngineState :=
  Except.ok (add_symptom st s)

/-- Modelled from the spec: the knowledge base goal remove_symptom(S) retracts
S from the working set when present; removing an absent id is a silent no-op,
not an error. -/
def kbRemoveSymptom (ws : List String) (s : String) : List String :=
  ws.filter (fun c => c != s)

/-- TriageEngine.remove_symptom (triage.py lines 55-56): runs the goal and
discards its solutions; never raises. -/
def remove_symptom (st : EngineState) (s : String) : EngineState :=
  ⟨kbRemoveSymptom st.workingSet s⟩

/-- The observable outcome of calling TriageEngine.remove_symptom: the method
body (triage.py lines 55-56) contains no raise, so the call always returns
normally. -/
def remove_symptomOutcome (st : EngineState) (s : String) : Except String EngineState :=
  Except.ok (remove_symptom st s)

/-- TriageEngine.clear_symptoms (triage.py lines 58-59): resets the working set
to empty via the clear_symptoms goal. -/
def clear_symptoms (_ : EngineState) : EngineState :=
  ⟨[]⟩

/-- TriageEngine.get_current_symptoms (triage.py lines 61-65): queries
current_symptoms(S) and returns the bound list (the working set in insertion
order). -/
def get_current_symptoms (st : EngineState) : List String :=
  st.workingSet

/-- TriageEngine.get_available_symptoms (triage.py lines 67-69): queries
available_symptom(Id, Desc) and returns all (identifier, description) pairs. -/
def get_available_symptoms (_ : EngineState) : List (String × String) :=
  symptomTable

/-- TriageEngine.run_triage (triage.py lines 71-77): queries
triage(Level, Explanations); when the query yields a solution it returns that
level with its explanations, otherwise it returns the level none with the
default message.  The query never mutates the working set. -/
def run_triage (st : EngineState) : String × List String :=
  match kbTriage st.workingSet with
  | some (level, explanations) => (level, explanations)
  | none => ("none", ["Unable to determine triage level."])

/-- TriageEngine.run_triage_all (triage.py lines 79-89): for each level in the
fixed list critical, urgent, moderate, low, queries fired_rules(level, Rules),
Rules non-empty, extract_explanations(Rules, Explanations), and appends
(level, explanations) whenever the query succeeds. -/
def run_triage_all (st : EngineState) : List (String × List String) :=
  tierOrder.filterMap (fun level =>
    let rules := fired_rules st.workingSet level
    if rules.isEmpty then none
    else some (level, rules.map Rule.explanation))

/-- The result dictionary of run_triage_for_symptoms (triage.py lines 278-283):
exactly the four fields level, explanations, all_levels, symptoms.  The Python
dict built from the (level, explanations) pairs is an association list with
distinct keys, kept here in construction order. -/
structure TriageResult where
  level : String
  explanations : List String
  all_levels : List (String × List String)
  symptoms : List String
deriving Repr, DecidableEq

/-- run_triage_for_symptoms (triage.py lines 263-283) with the outcome of the
engine.run_triage_all() call made explicit: the call sits in a try block
(lines 272-276) whose except branch replaces the breakdown with an empty
dict.  A fresh engine is constructed, every input symptom is added, triage is
run once, and the result dict is assembled. -/
def run_triage_for_symptomsWith (symptoms : List String)
    (allQuery : Except String (List (String × List String))) : TriageResult :=
  let engine : EngineState := ⟨[]⟩
  let engine := symptoms.foldl add_symptom engine
  let lvlExp := run_triage engine
  let all_levels_dict :=
    match allQuery with
    | Except.ok pairs => pairs
    | Except.error _ => []
  { level := lvlExp.1
    explanations := lvlExp.2
    all_levels := all_levels_dict
    symptoms := symptoms }

/-- run_triage_for_symptoms (triage.py lines 263-283): the programmatic entry
point; with the modelled knowledge base the breakdown query returns normally,
so the try branch is taken. -/
def run_triage_for_symptoms (symptoms : List String) : TriageResult :=
  run_triage_for_symptomsWith symptoms
    (Except.ok (run_triage_all (symptoms.foldl add_symptom ⟨[]⟩)))

/-- Effects performed on the knowledge base during TriageEngine construction. -/
inductive EngineAction where
  | consultKB
  | clearWorkingSet
deriving Repr, DecidableEq

/-- TriageEngine construction (triage.py lines 44-50): the kb-path existence
check raises FileNotFoundError before prolog.consult runs; when the file
exists, the KB is consulted and then clear_symptoms empties the working set.
Returns the actions performed on the KB together with the outcome. -/
def initEngineRun (kbExists : Bool) : List EngineAction × Except String EngineState :=
  if kbExists then
    ([EngineAction.consultKB, EngineAction.clearWorkingSet], Except.ok ⟨[]⟩)
  else
    ([], Except.error "Knowledge base not found")

/-- How the interactive entry point leaves its startup phase. -/
inductive StartupOutcome where
  | exitProcess (code : Nat)
  | enterMenu (st : EngineState)
deriving Repr, DecidableEq

/-- run_interactive startup (triage.py lines 153-169): if TriageEngine()
raises, the error is printed and the process exits with status 1; if the
engine loads but reports no available symptoms, the process also exits with
status 1; otherwise the menu loop is entered. -/
def run_interactiveStartup (kbExists : Bool) : StartupOutcome :=
  match (initEngineRun kbExists).2 with
  | Except.error _ => StartupOutcome.exitProcess 1
  | Except.ok st =>
    if (get_available_symptoms st).isEmpty then StartupOutcome.exitProcess 1
    else StartupOutcome.enterMenu st

/-- Spec-side definition (spec sections 3 and 8): the highest tier in the fixed
order critical, urgent, moderate, low for which at least one rule of the
catalog has its whole condition set contained in the working set; the string
none when no rule fires. -/
def highestFiredTier (working : List String) : String :=
  (tierOrder.find? (fun t =>
    ruleCatalog.any (fun r => r.tier == t && r.conditions.all (fun c => working.contains c)))).getD "none"

/-- A filtered list is empty exactly when no element satisfies the filter. -/
theorem filter_isEmpty_eq_not_any {α : Type} (f : α → Bool) (l : List α) :
    (l.filter f).isEmpty = !(l.any f) := by
  induction l with
  | nil => rfl
  | cons a l ih => cases h : f a <;> simp [List.filter_cons, h, ih]

/-- Mapping first components over a filterMap that preserves keys yields a
sublist of the scanned list. -/
theorem map_fst_filterMap_sublist {α β : Type} (f : α → Option (α × β)) (l : List α)
    (hf : ∀ t p, f t = some p → p.1 = t) :
    List.Sublist ((l.filterMap f).map Prod.fst) l := by
  induction l with
  | nil => simp
  | cons a l ih =>
    cases hfa : f a with
    | none =>
      rw [List.filterMap_cons_none hfa]
      exact ih.cons a
    | some p =>
      rw [List.filterMap_cons_some hfa, List.map_cons, hf a p hfa]
      exact ih.cons₂ a

/-- Claim C1: for every working symptom set, the level returned by evaluation
(TriageEngine.run_triage, surfaced as the level field of
run_triage_for_symptoms) is the highest tier in the fixed order critical,
urgent, moderate, low for which at least one rule's condition set is a subset
of the working set, and is none if no rule fires. -/
theorem run_triage_level_is_highestFiredTier :
    (∀ st : EngineState, (run_triage st).1 = highestFiredTier st.workingSet) ∧
    (∀ symptoms : List String, (run_triage_for_symptoms symptoms).level =
      highestFiredTier ((symptoms.foldl add_symptom ⟨[]⟩).workingSet)) := by
  have key : ∀ st : EngineState, (run_triage st).1 = highestFiredTier st.workingSet := by
    intro st
    have hfun : (fun t => !(fired_rules st.workingSet t).isEmpty)
        = (fun t => ruleCatalog.any
            (fun r => r.tier == t && r.conditions.all (fun c => st.workingSet.contains c))) := by
      funext t
      rw [fired_rules, filter_isEmpty_eq_not_any, Bool.not_not]
    simp only [run_triage, kbTriage, highestFiredTier, hfun]
    cases hfind : tierOrder.find? (fun t => ruleCatalog.any
        (fun r => r.tier == t && r.conditions.all (fun c => st.workingSet.contains c))) with
    | none => simp [hfind]
    | some t => simp [hfind]
  exact ⟨key, fun symptoms => key (symptoms.foldl add_symptom ⟨[]⟩)⟩

/-- Claim C2 counterexample: the identifier toothache is outside the
vocabulary, yet add_symptom returns normally (triage.py lines 52-53 discard
the failed goal's empty solution list and raise nothing), with the working set
unchanged — so the claim that the call fails with an UnknownSymptomError
reported to the caller is false. -/
theorem add_symptom_unknown_not_reported :
    "toothache" ∉ symptomVocabulary ∧
    add_symptomOutcome ⟨[]⟩ "toothache" = Except.ok ⟨[]⟩ :=
  ⟨by decide, rfl⟩

/-- Claim C2 amended: for every identifier outside the vocabulary, add_symptom
returns normally with no error reported to the caller (the underlying
knowledge-base goal merely fails) and the working set is unchanged. -/
theorem add_symptom_unknown_silent_noop (st : EngineState) (s : String)
    (h : s ∉ symptomVocabulary) : add_symptomOutcome st s = Except.ok st := by
  simp [add_symptomOutcome, add_symptom, kbAddSymptom, h]

/-- Witness for the amended C2 theorem at a concrete unknown identifier. -/
theorem add_symptom_unknown_silent_noop_witness :
    add_symptomOutcome ⟨["fever"]⟩ "toothache" = Except.ok ⟨["fever"]⟩ :=
  add_symptom_unknown_silent_noop ⟨["fever"]⟩ "toothache" (by decide)

/-- Claim C3: add_symptom is idempotent — adding the same symptom twice yields
the same working set (as observed via get_current_symptoms) as adding it once,
with no duplicate entry. -/
theorem add_symptom_idempotent :
    ∀ (st : EngineState) (x : String),
      get_current_symptoms (add_symptom (add_symptom st x) x) =
        get_current_symptoms (add_symptom st x) ∧
      List.count x (get_current_symptoms (add_symptom (add_symptom ⟨[]⟩ x) x)) ≤ 1 := by
  intro st x
  constructor
  · by_cases hv : x ∈ symptomVocabulary
    · by_cases hm : x ∈ st.workingSet
      · simp [get_current_symptoms, add_symptom, kbAddSymptom, hv, hm]
      · have hm2 : x ∈ st.workingSet ++ [x] := by simp
        simp [get_current_symptoms, add_symptom, kbAddSymptom, hv, hm, hm2]
    · simp [get_current_symptoms, add_symptom, kbAddSymptom, hv]
  · by_cases hv : x ∈ symptomVocabulary
    · have hx : x ∈ ([] : List String) ++ [x] := by simp
      simp [get_current_symptoms, add_symptom, kbAddSymptom, hv, hx]
    · simp [get_current_symptoms, add_symptom, kbAddSymptom, hv]

/-- Claim C4: the breakdown list produced by run_triage_all never contains the
key none, never contains a tier with zero fired rules, and lists its tiers in
the fixed descending order critical, urgent, moderate, low (it is a sublist of
that order). -/
theorem run_triage_all_breakdown_invariants (st : EngineState) :
    (∀ p ∈ run_triage_all st, p.1 ≠ "none" ∧ fired_rules st.workingSet p.1 ≠ []) ∧
    List.Sublist ((run_triage_all st).map Prod.fst) tierOrder := by
  constructor
  · intro p hp
    rw [run_triage_all] at hp
    obtain ⟨t, ht, hft⟩ := List.mem_filterMap.mp hp
    simp only at hft
    by_cases he : (fired_rules st.workingSet t).isEmpty
    · rw [if_pos he] at hft
      exact absurd hft (by simp)
    · rw [if_neg he] at hft
      have hp1 : p.1 = t := by
        cases hft
        rfl
      constructor
      · rw [hp1]
        have : t = "critical" ∨ t = "urgent" ∨ t = "moderate" ∨ t = "low" := by
          simpa [tierOrder] using ht
        rcases this with rfl | rfl | rfl | rfl <;> decide
      · rw [hp1]
        intro hnil
        rw [hnil] at he
        exact he rfl
  · apply map_fst_filterMap_sublist
    intro t p hft
    simp only at hft
    by_cases he : (fired_rules st.workingSet t).isEmpty
    · rw [if_pos he] at hft
      exact absurd hft (by simp)
    · rw [if_neg he] at hft
      cases hft
      rfl

/-- Witness for C4 at a concrete state and breakdown entry. -/
theorem run_triage_all_breakdown_invariants_witness :
    "urgent" ≠ "none" ∧ fired_rules ["chest_pain"] "urgent" ≠ [] :=
  (run_triage_all_breakdown_invariants ⟨["chest_pain"]⟩).1
    ("urgent", ["Chest pain without co-symptoms warrants prompt medical evaluation."])
    (by decide)

/-- Claim C5: run_triage_for_symptoms constructs a fresh engine, adds all
given symptoms, evaluates once, and returns a record with exactly the fields
level, explanations, all_levels and symptoms, where symptoms echoes the input
unchanged; as a pure function of its input it is stateless from the caller's
perspective, so two calls with the same input agree. -/
theorem run_triage_for_symptoms_structure :
    ∀ symptoms : List String,
      run_triage_for_symptoms symptoms =
        { level := (run_triage (symptoms.foldl add_symptom ⟨[]⟩)).1
          explanations := (run_triage (symptoms.foldl add_symptom ⟨[]⟩)).2
          all_levels := run_triage_all (symptoms.foldl add_symptom ⟨[]⟩)
          symptoms := symptoms } ∧
      (run_triage_for_symptoms symptoms).symptoms = symptoms :=
  fun _ => ⟨rfl, rfl⟩

/-- Claim C6: run_triage is total (a Lean function) and leaves the working set
untouched (it takes the state only as input); on the empty working set, and
whenever the underlying triage query yields no solution, it returns the level
none with the default message. -/
theorem run_triage_total_default :
    run_triage ⟨[]⟩ = ("none", ["Unable to determine triage level."]) ∧
    (∀ st : EngineState, kbTriage st.workingSet = none →
      run_triage st = ("none", ["Unable to determine triage level."])) := by
  refine ⟨by decide, fun st h => ?_⟩
  simp [run_triage, h]

/-- Witness for C6 at a concrete state on which no rule fires. -/
theorem run_triage_total_default_witness :
    run_triage ⟨["swelling"]⟩ = ("none", ["Unable to determine triage level."]) :=
  run_triage_total_default.2 ⟨["swelling"]⟩ (by decide)

/-- Claim C7: when the knowledge-base file is absent, engine construction
fails before any consult action is performed, and the interactive entry point
exits the process with status 1. -/
theorem init_missing_kb_fatal :
    (initEngineRun false).1 = [] ∧
    (initEngineRun false).2 = Except.error "Knowledge base not found" ∧
    run_interactiveStartup false = StartupOutcome.exitProcess 1 :=
  ⟨rfl, rfl, rfl⟩

/-- Claim C8: removing an identifier not currently in the working set succeeds
silently as a no-op — no error is raised and the working set is unchanged. -/
theorem remove_absent_silent_noop (st : EngineState) (s : String)
    (h : s ∉ st.workingSet) : remove_symptomOutcome st s = Except.ok st := by
  have hfe : st.workingSet.filter (fun c => c != s) = st.workingSet := by
    apply List.filter_eq_self.mpr
    intro a ha
    simp only [bne_iff_ne, ne_eq, decide_eq_true_eq]
    intro he
    exact h (he ▸ ha)
  simp [remove_symptomOutcome, remove_symptom, kbRemoveSymptom, hfe]

/-- Witness for C8 at a concrete state and absent identifier. -/
theorem remove_absent_silent_noop_witness :
    remove_symptomOutcome ⟨["fever"]⟩ "cough" = Except.ok ⟨["fever"]⟩ :=
  remove_absent_silent_noop ⟨["fever"]⟩ "cough" (by decide)

/-- Claim C9: chest pain alone evaluates to the level urgent, not critical,
while chest pain together with shortness of breath evaluates to critical — a
rule fires only on full subset containment of its condition set, never on a
partial match. -/
theorem chest_pain_subset_containment :
    (run_triage_for_symptoms ["chest_pain"]).level = "urgent" ∧
    (run_triage_for_symptoms ["chest_pain", "shortness_of_breath"]).level = "critical" :=
  ⟨by decide, by decide⟩

/-- Claim C10: when the breakdown query raises, run_triage_for_symptoms
swallows the exception and returns an empty all_levels mapping, so all_levels
can be empty even when the level is not none. -/
theorem run_triage_all_error_swallowed :
    (∀ (symptoms : List String) (msg : String),
      (run_triage_for_symptomsWith symptoms (Except.error msg)).all_levels = []) ∧
    (run_triage_for_symptomsWith ["chest_pain"] (Except.error "pyswip failure")).level
      = "urgent" :=
  ⟨fun _ _ => rfl, by decide⟩

end Triage
